import Mathlib

/-!
# Authorization-Tracker: verification of the access-control and record-lifecycle engine

Shallow embedding of `server.ts` (Express + SQLite backend of the
Authorization-Tracker repository).

Modelling conventions:
* SQL `TEXT` columns (all nullable) are `Option String`; SQL `NULL` is `none`.
  A JSON request-body field that is absent or `null` is modelled as `none` and
  binds as SQL `NULL`.
* `DATETIME` timestamps are abstracted as `Nat` clock readings; every handler
  that writes `CURRENT_TIMESTAMP` receives the current reading as an explicit
  `now` argument (both timestamp columns written by a single SQL statement
  receive the same reading, as in SQLite).
* Tables are Lean lists of rows; a SQL `UPDATE ... WHERE id = ?` is a `List.map`
  guarded by the `WHERE` condition, `DELETE ... WHERE p` is a `List.filter`
  keeping the rows that do not satisfy `p`, `SELECT ... WHERE id = ?` is
  `List.find?` (SQLite returns the first matching row).
* `AUTOINCREMENT` row ids are passed in as explicit arguments.
* `ORDER BY` clauses of the two listing queries only permute the returned rows;
  the properties verified here are membership properties, so the listings are
  modelled as the filtered row sets.
* `bcrypt` hashing is abstracted by an explicit injective stand-in
  (`bcryptHashSync`); no verified property depends on hash values.
* `JSON.stringify(checklist)` is abstracted: the body's `checklist` field holds
  the serialized string directly.
-/

/-- A row of the `users` table: `id INTEGER PRIMARY KEY`, `username TEXT UNIQUE
NOT NULL`, `password TEXT NOT NULL`, `role TEXT DEFAULT 'employee'`. -/
structure User where
  id : Nat
  username : String
  password : String
  role : Option String
deriving Repr, DecidableEq

/-- A row of the `auth_records` table, in schema order. -/
structure AuthRecord where
  id : Nat
  visit_type : Option String
  insurance : Option String
  insurance_id : Option String
  patient_name : Option String
  dob : Option String
  account_number : Option String
  p_r : Option String
  doctor_name : Option String
  procedure_codes : Option String
  dx_codes : Option String
  status : Option String
  request_initiated : Option String
  insurance_portal_name : Option String
  rep_name : Option String
  phone_number : Option String
  auth_case_number : Option String
  ref_number : Option String
  date_worked : Option String
  call_time_spent : Option String
  checklist : Option String
  notes : Option String
  is_deleted : Nat
  user_id : Option Nat
  created_at : Nat
  updated_at : Nat
deriving Repr, DecidableEq

/-- The 21 record fields destructured from the JSON request body by the
`POST /api/records` and `PUT /api/records/:id` handlers. -/
structure RecordBody where
  visit_type : Option String
  insurance : Option String
  insurance_id : Option String
  patient_name : Option String
  dob : Option String
  account_number : Option String
  p_r : Option String
  doctor_name : Option String
  procedure_codes : Option String
  dx_codes : Option String
  status : Option String
  request_initiated : Option String
  insurance_portal_name : Option String
  rep_name : Option String
  phone_number : Option String
  auth_case_number : Option String
  ref_number : Option String
  date_worked : Option String
  call_time_spent : Option String
  checklist : Option String
  notes : Option String
deriving Repr, DecidableEq

/-- The payload signed into the session token by `POST /api/auth/login`:
`jwt.sign(\x7b id: user.id, username: user.username \x7d, ...)`.  Note that the
token embeds no role. -/
structure SessionClaims where
  id : Nat
  username : String
deriving Repr, DecidableEq

/-- Outcome of reading `req.cookies.token` and running `jwt.verify` on it:
either no cookie is present, or verification fails (bad signature, malformed
token, or expired token all make `jwt.verify` report an error), or
verification succeeds and yields the decoded claims. -/
inductive TokenState where
  | noToken : TokenState
  | badToken : TokenState
  | goodToken (claims : SessionClaims) : TokenState
deriving Repr, DecidableEq

/-- Outcome of a middleware: either it responds with an error status and JSON
error message, or it calls `next()` with `req.user` set. -/
inductive AuthResult where
  | reject (status : Nat) (msg : String) : AuthResult
  | proceed (user : SessionClaims) : AuthResult
deriving Repr, DecidableEq

/-- An HTTP response as observed by the client: a success (HTTP 200 JSON
body) or an error with its status code and message.  Payloads of successful
read responses are characterised by the query functions below. -/
inductive Resp where
  | ok : Resp
  | err (status : Nat) (msg : String) : Resp
deriving Repr, DecidableEq

/-- The persistent store: the `users` and `auth_records` tables.  (The
`settings` table plays no part in the verified claims.) -/
structure Db where
  users : List User
  records : List AuthRecord
deriving Repr, DecidableEq

/-- Stand-in for `bcrypt.hashSync(pw, 10)`.  No verified property inspects
hash values; only that the stored value is derived from the plaintext. -/
def bcryptHashSync (pw : String) : String :=
  "$2a$10$" ++ pw

/-- The `authenticateToken` middleware (server.ts lines 126-135): a missing
cookie is rejected with 401 "Unauthorized"; a token that fails `jwt.verify`
is rejected with 403 "Forbidden"; a verified token proceeds with its claims
as `req.user`. -/
def authenticateToken : TokenState → AuthResult
  | TokenState.noToken => AuthResult.reject 401 "Unauthorized"
  | TokenState.badToken => AuthResult.reject 403 "Forbidden"
  | TokenState.goodToken claims => AuthResult.proceed claims

/-- `SELECT ... FROM users WHERE id = ?`. -/
def userById (users : List User) (uid : Nat) : Option User :=
  users.find? (fun u => u.id = uid)

/-- The `isAdmin` middleware (server.ts lines 137-144): re-reads the caller's
current role from the `users` table (`SELECT role FROM users WHERE id = ?`)
and proceeds only when a row exists and its role is `'admin'`. -/
def isAdmin (users : List User) (req_user : SessionClaims) : AuthResult :=
  match userById users req_user.id with
  | some u =>
      if u.role = some "admin" then AuthResult.proceed req_user
      else AuthResult.reject 403 "Admin access required"
  | none => AuthResult.reject 403 "Admin access required"

/-- The middleware chain `authenticateToken, isAdmin` guarding every
admin-only route. -/
def adminGate (users : List User) (tok : TokenState) : AuthResult :=
  match authenticateToken tok with
  | AuthResult.proceed u => isAdmin users u
  | r => r

/-- The claims signed into the token at login for the authenticated user
(server.ts line 153): id and username only; the role is not embedded. -/
def loginClaims (u : User) : SessionClaims :=
  { id := u.id, username := u.username }

/-- `INSERT INTO auth_records (...21 body columns..., user_id) VALUES (...)`
performed by `POST /api/records` (server.ts lines 286-312).  The `status`
column is named explicitly in the INSERT column list, so the bound body value
is stored as-is and the schema default `'Pending'` does not apply; the
columns `is_deleted`, `created_at`, `updated_at` are omitted from the column
list, so their schema defaults (`0`, `CURRENT_TIMESTAMP`, `CURRENT_TIMESTAMP`)
do apply. -/
def createRecord (body : RecordBody) (userId : Nat) (rid : Nat) (now : Nat) : AuthRecord :=
  { id := rid
    visit_type := body.visit_type
    insurance := body.insurance
    insurance_id := body.insurance_id
    patient_name := body.patient_name
    dob := body.dob
    account_number := body.account_number
    p_r := body.p_r
    doctor_name := body.doctor_name
    procedure_codes := body.procedure_codes
    dx_codes := body.dx_codes
    status := body.status
    request_initiated := body.request_initiated
    insurance_portal_name := body.insurance_portal_name
    rep_name := body.rep_name
    phone_number := body.phone_number
    auth_case_number := body.auth_case_number
    ref_number := body.ref_number
    date_worked := body.date_worked
    call_time_spent := body.call_time_spent
    checklist := body.checklist
    notes := body.notes
    is_deleted := 0
    user_id := some userId
    created_at := now
    updated_at := now }

/-- The `status` column default declared by the `auth_records` schema
(`status TEXT DEFAULT 'Pending'`, server.ts line 45). -/
def schemaDefaultStatus : Option String :=
  some "Pending"

/-- Effect on one row of the `UPDATE auth_records SET ... WHERE id = ?` of
`PUT /api/records/:id` (server.ts lines 314-340): every editable column is
overwritten from the body and `updated_at = CURRENT_TIMESTAMP`; the columns
`id`, `is_deleted`, `user_id`, `created_at` are absent from the SET list. -/
def applyUpdate (body : RecordBody) (now : Nat) (r : AuthRecord) : AuthRecord :=
  { r with
    visit_type := body.visit_type
    insurance := body.insurance
    insurance_id := body.insurance_id
    patient_name := body.patient_name
    dob := body.dob
    account_number := body.account_number
    p_r := body.p_r
    doctor_name := body.doctor_name
    procedure_codes := body.procedure_codes
    dx_codes := body.dx_codes
    status := body.status
    request_initiated := body.request_initiated
    insurance_portal_name := body.insurance_portal_name
    rep_name := body.rep_name
    phone_number := body.phone_number
    auth_case_number := body.auth_case_number
    ref_number := body.ref_number
    date_worked := body.date_worked
    call_time_spent := body.call_time_spent
    checklist := body.checklist
    notes := body.notes
    updated_at := now }

/-- The table after `PUT /api/records/:id`: rows matching the id are
overwritten, all other rows untouched. -/
def update (store : List AuthRecord) (rid : Nat) (body : RecordBody) (now : Nat) :
    List AuthRecord :=
  store.map (fun r => if r.id = rid then applyUpdate body now r else r)

/-- `UPDATE auth_records SET is_deleted = 1, updated_at = CURRENT_TIMESTAMP
WHERE id = ?` — the soft delete of `DELETE /api/records/:id` (server.ts
lines 342-347). -/
def softDelete (store : List AuthRecord) (rid : Nat) (now : Nat) : List AuthRecord :=
  store.map (fun r =>
    if r.id = rid then { r with is_deleted := 1, updated_at := now } else r)

/-- `UPDATE auth_records SET is_deleted = 0, updated_at = CURRENT_TIMESTAMP
WHERE id = ?` — the restore of `POST /api/records/:id/restore` (server.ts
lines 349-353). -/
def restore (store : List AuthRecord) (rid : Nat) (now : Nat) : List AuthRecord :=
  store.map (fun r =>
    if r.id = rid then { r with is_deleted := 0, updated_at := now } else r)

/-- `DELETE FROM auth_records WHERE id = ? AND is_deleted = 1` — the purge of
`DELETE /api/records/:id/permanent` (server.ts lines 355-359): the table
keeps exactly the rows not matching the WHERE clause. -/
def purge (store : List AuthRecord) (rid : Nat) : List AuthRecord :=
  store.filter (fun r => ¬(r.id = rid ∧ r.is_deleted = 1))

/-- `SELECT * FROM auth_records WHERE is_deleted = 0` — the row set returned
by `GET /api/records` (the `ORDER BY date_worked DESC` clause only permutes
it). -/
def listActive (store : List AuthRecord) : List AuthRecord :=
  store.filter (fun r => r.is_deleted = 0)

/-- `SELECT * FROM auth_records WHERE is_deleted = 1` — the row set returned
by `GET /api/records/deleted` (the `ORDER BY updated_at DESC` clause only
permutes it). -/
def listTrashed (store : List AuthRecord) : List AuthRecord :=
  store.filter (fun r => r.is_deleted = 1)

/-- The row returned by the `GET /api/records/stats` aggregate query. -/
structure RecordStatsRow where
  total : Nat
  pending : Nat
  approved : Nat
  denied : Nat
  not_required : Nat
  follow_up : Nat
  cancelled : Nat
  not_covered : Nat
  submitted_today : Nat
deriving Repr, DecidableEq

/-- The aggregate of `GET /api/records/stats` (server.ts lines 268-284):
over the rows with `is_deleted = 0` (the WHERE clause), `total` is
`COUNT(*)` and each status bucket is `SUM(CASE WHEN status = '...' AND
is_deleted = 0 THEN 1 ELSE 0 END)` (the per-bucket `is_deleted = 0` check
is redundant with the WHERE clause but kept as in the SQL).  The predicate
`todayP` stands for `date(request_initiated) = date('now')`, which depends
on the wall clock.  SQLite's `SUM` over zero rows yields `NULL`, rendered
here as `0`. -/
def recordStats (store : List AuthRecord) (todayP : Option String → Bool) :
    RecordStatsRow :=
  let active := store.filter (fun r => r.is_deleted = 0)
  { total := active.length
    pending := active.countP (fun r => r.status = some "Pending" ∧ r.is_deleted = 0)
    approved := active.countP (fun r => r.status = some "Approved" ∧ r.is_deleted = 0)
    denied := active.countP (fun r => r.status = some "Denied" ∧ r.is_deleted = 0)
    not_required := active.countP (fun r => r.status = some "Not Required" ∧ r.is_deleted = 0)
    follow_up := active.countP (fun r => r.status = some "Follow Up" ∧ r.is_deleted = 0)
    cancelled := active.countP (fun r => r.status = some "Cancelled" ∧ r.is_deleted = 0)
    not_covered := active.countP (fun r => r.status = some "Not Covered" ∧ r.is_deleted = 0)
    submitted_today := active.countP (fun r => todayP r.request_initiated ∧ r.is_deleted = 0) }

/-- The seven status values enumerated by the stats query and by the
`AuthStatus` type of `src/types.ts`. -/
def sevenStatuses : List (Option String) :=
  [some "Pending", some "Approved", some "Denied", some "Not Required",
   some "Follow Up", some "Cancelled", some "Not Covered"]

/-! ## HTTP endpoints

Each endpoint runs its express middleware chain first; a middleware rejection
produces its error response and leaves the store untouched (the handler body
never runs).  Endpoints return the client-visible response together with the
store after the request. -/

/-- `GET /api/users` (admin only): read-only listing. -/
def listUsersEndpoint (db : Db) (tok : TokenState) : Resp × Db :=
  match adminGate db.users tok with
  | AuthResult.reject s m => (Resp.err s m, db)
  | AuthResult.proceed _ => (Resp.ok, db)

/-- `GET /api/users/stats` (admin only): read-only per-employee aggregate. -/
def userStatsEndpoint (db : Db) (tok : TokenState) : Resp × Db :=
  match adminGate db.users tok with
  | AuthResult.reject s m => (Resp.err s m, db)
  | AuthResult.proceed _ => (Resp.ok, db)

/-- `POST /api/users` (admin only): inserts a user with the hashed password
and role `body role || 'employee'` (JS `||`: `'employee'` when the role field
is absent); the UNIQUE constraint on `username` makes the insert throw, which
the handler maps to 400 "Username already exists". -/
def createUserEndpoint (db : Db) (tok : TokenState) (username pw : String)
    (role : Option String) (newId : Nat) : Resp × Db :=
  match adminGate db.users tok with
  | AuthResult.reject s m => (Resp.err s m, db)
  | AuthResult.proceed _ =>
      if db.users.any (fun u => u.username = username) then
        (Resp.err 400 "Username already exists", db)
      else
        (Resp.ok, { db with users := db.users ++
          [{ id := newId, username := username,
             password := bcryptHashSync pw,
             role := some (role.getD "employee") }] })

/-- `PATCH /api/users/:id` (admin only): overwrites `username` and `role`
(and `password` when one is supplied) of the matching row; a UNIQUE-constraint
violation on the new username is mapped to 400. -/
def editUserEndpoint (db : Db) (tok : TokenState) (uid : Nat)
    (username : String) (pw : Option String) (role : Option String) : Resp × Db :=
  match adminGate db.users tok with
  | AuthResult.reject s m => (Resp.err s m, db)
  | AuthResult.proceed _ =>
      if db.users.any (fun u => u.username = username ∧ u.id ≠ uid) then
        (Resp.err 400 "Username already exists or update failed", db)
      else
        (Resp.ok, { db with users := db.users.map (fun u =>
          if u.id = uid then
            { u with
              username := username
              role := role
              password := (pw.map bcryptHashSync).getD u.password }
          else u) })

/-- `DELETE /api/users/:id` (admin only): refuses to delete the row whose
username is `'admin'` (400 "Cannot delete primary admin"), otherwise
`DELETE FROM users WHERE id = ?`. -/
def deleteUserEndpoint (db : Db) (tok : TokenState) (uid : Nat) : Resp × Db :=
  match adminGate db.users tok with
  | AuthResult.reject s m => (Resp.err s m, db)
  | AuthResult.proceed _ =>
      match userById db.users uid with
      | some u =>
          if u.username = "admin" then
            (Resp.err 400 "Cannot delete primary admin", db)
          else
            (Resp.ok, { db with users := db.users.filter (fun v => ¬ v.id = uid) })
      | none => (Resp.ok, { db with users := db.users.filter (fun v => ¬ v.id = uid) })

/-- `GET /api/records` (any authenticated caller): read-only; the payload is
`listActive db.records`. -/
def listRecordsEndpoint (db : Db) (tok : TokenState) : Resp × Db :=
  match authenticateToken tok with
  | AuthResult.reject s m => (Resp.err s m, db)
  | AuthResult.proceed _ => (Resp.ok, db)

/-- `GET /api/records/deleted` (any authenticated caller): read-only; the
payload is `listTrashed db.records`. -/
def listTrashedEndpoint (db : Db) (tok : TokenState) : Resp × Db :=
  match authenticateToken tok with
  | AuthResult.reject s m => (Resp.err s m, db)
  | AuthResult.proceed _ => (Resp.ok, db)

/-- `POST /api/records` (any authenticated caller): inserts the record with
`user_id = req.user.id` and responds with the new row id (200). -/
def createRecordEndpoint (db : Db) (tok : TokenState) (body : RecordBody)
    (rid : Nat) (now : Nat) : Resp × Db :=
  match authenticateToken tok with
  | AuthResult.reject s m => (Resp.err s m, db)
  | AuthResult.proceed u =>
      (Resp.ok, { db with records := db.records ++ [createRecord body u.id rid now] })

/-- `PUT /api/records/:id` (any authenticated caller): always responds
`\x7b success: true \x7d` (200), whether or not any row matched. -/
def updateRecordEndpoint (db : Db) (tok : TokenState) (rid : Nat)
    (body : RecordBody) (now : Nat) : Resp × Db :=
  match authenticateToken tok with
  | AuthResult.reject s m => (Resp.err s m, db)
  | AuthResult.proceed _ => (Resp.ok, { db with records := update db.records rid body now })

/-- `DELETE /api/records/:id` (admin only): soft delete; always responds
success (200) once past the gate, whether or not any row matched. -/
def softDeleteEndpoint (db : Db) (tok : TokenState) (rid : Nat) (now : Nat) : Resp × Db :=
  match adminGate db.users tok with
  | AuthResult.reject s m => (Resp.err s m, db)
  | AuthResult.proceed _ => (Resp.ok, { db with records := softDelete db.records rid now })

/-- `POST /api/records/:id/restore` (any authenticated caller — no `isAdmin`
in its middleware chain): always responds success (200) once authenticated. -/
def restoreEndpoint (db : Db) (tok : TokenState) (rid : Nat) (now : Nat) : Resp × Db :=
  match authenticateToken tok with
  | AuthResult.reject s m => (Resp.err s m, db)
  | AuthResult.proceed _ => (Resp.ok, { db with records := restore db.records rid now })

/-- `DELETE /api/records/:id/permanent` (admin only): purge; always responds
success (200) once past the gate. -/
def purgeEndpoint (db : Db) (tok : TokenState) (rid : Nat) : Resp × Db :=
  match adminGate db.users tok with
  | AuthResult.reject s m => (Resp.err s m, db)
  | AuthResult.proceed _ => (Resp.ok, { db with records := purge db.records rid })

/-! ## Concrete sample data (used by witnesses and counterexamples) -/

/-- A request body with every field absent (`none`, i.e. SQL `NULL`). -/
def emptyBody : RecordBody :=
  { visit_type := none, insurance := none, insurance_id := none,
    patient_name := none, dob := none, account_number := none, p_r := none,
    doctor_name := none, procedure_codes := none, dx_codes := none,
    status := none, request_initiated := none, insurance_portal_name := none,
    rep_name := none, phone_number := none, auth_case_number := none,
    ref_number := none, date_worked := none, call_time_spent := none,
    checklist := none, notes := none }

/-- A request body whose `status` field is the string `"Submitted"`,
which is outside the seven enumerated statuses. -/
def oddBody : RecordBody :=
  { emptyBody with status := some "Submitted" }

/-- An active record with id 1. -/
def rec1 : AuthRecord :=
  createRecord { emptyBody with status := some "Pending" } 1 1 0

/-- A trashed record with id 2. -/
def rec2 : AuthRecord :=
  { createRecord { emptyBody with status := some "Pending" } 1 2 0 with is_deleted := 1 }

/-- A stored user row holding the admin role. -/
def adminRow : User :=
  { id := 1, username := "admin", password := bcryptHashSync "admin-password",
    role := some "admin" }

/-- A stored user row holding the employee role, with the same id and
username as `adminRow`: the state of the user table after the admin with
id 1 has been demoted. -/
def demotedRow : User :=
  { adminRow with role := some "employee" }

/-- A stored user row for an employee with id 7. -/
def employeeRow : User :=
  { id := 7, username := "bob", password := bcryptHashSync "pw",
    role := some "employee" }

/-! ## Helper lemmas -/

/-- A guarded row map leaves the table unchanged when no row matches the id. -/
theorem map_guard_id_of_not_mem (rid : Nat) (f : AuthRecord → AuthRecord)
    (l : List AuthRecord) :
    (∀ r ∈ l, r.id ≠ rid) →
    l.map (fun r => if r.id = rid then f r else r) = l := by
  induction l with
  | nil => intro _; rfl
  | cons a t ih =>
    intro h
    have ha : a.id ≠ rid := h a (List.mem_cons_self a t)
    have ht := ih (fun r hr => h r (List.mem_cons_of_mem a hr))
    simp [ha, ht]

/-- Setting `is_deleted` to the value it already has is invisible. -/
theorem with_is_deleted_self (r : AuthRecord) (t : Nat) (h : r.is_deleted = 0) :
    ({ r with is_deleted := 0, updated_at := t } : AuthRecord) =
      { r with updated_at := t } := by
  rw [← h]

/-! ## Claims -/

/-- C1: the purge operation (`DELETE /api/records/:id/permanent`) removes a
row only if it currently has `is_deleted = 1`: every active
(`is_deleted = 0`) row survives a purge aimed at any id, and after purging a
trashed record that record appears in neither `listActive` nor
`listTrashed`. -/
theorem purge_only_removes_trashed (store : List AuthRecord) (rid : Nat) :
    (∀ r ∈ store, r.is_deleted = 0 → r ∈ purge store rid) ∧
    (∀ r : AuthRecord, r.id = rid → r.is_deleted = 1 →
      r ∉ listActive (purge store rid) ∧ r ∉ listTrashed (purge store rid)) := by
  constructor
  · intro r hr hdel
    simp [purge, List.mem_filter, hr, hdel]
  · intro r hid hdel
    constructor
    · simp [listActive, List.mem_filter, hdel]
    · simp [listTrashed, purge, List.mem_filter, hid, hdel]

/-- Witness for C1 on a concrete store: purging id 2 keeps the active record
`rec1` and removes the trashed record `rec2` from both listings. -/
theorem purge_only_removes_trashed_witness :
    rec1 ∈ purge [rec1, rec2] 2 ∧
    rec2 ∉ listActive (purge [rec1, rec2] 2) ∧
    rec2 ∉ listTrashed (purge [rec1, rec2] 2) := by
  have h := purge_only_removes_trashed [rec1, rec2] 2
  exact ⟨h.1 rec1 (by simp) (by decide),
    (h.2 rec2 (by decide) (by decide)).1,
    (h.2 rec2 (by decide) (by decide)).2⟩

/-- C2 counterexample: the claim says a request carrying a token that fails
verification gets HTTP 401, but `authenticateToken` answers such a request
with HTTP 403 "Forbidden" (server.ts line 131), which differs from the 401
"Unauthorized" answer given to a missing token. -/
theorem invalid_token_status_counterexample :
    authenticateToken TokenState.badToken = AuthResult.reject 403 "Forbidden" ∧
    authenticateToken TokenState.badToken ≠ AuthResult.reject 401 "Unauthorized" := by
  exact ⟨rfl, by decide⟩

/-- C2 (amended): a request with no token at all is answered 401
"Unauthorized", while a request whose token fails verification (bad
signature, malformed or expired) is answered 403 "Forbidden"; only a
verified token proceeds to the handler. -/
theorem authenticateToken_status_taxonomy :
    authenticateToken TokenState.noToken = AuthResult.reject 401 "Unauthorized" ∧
    authenticateToken TokenState.badToken = AuthResult.reject 403 "Forbidden" ∧
    ∀ claims, authenticateToken (TokenState.goodToken claims) = AuthResult.proceed claims :=
  ⟨rfl, rfl, fun _ => rfl⟩

/-- C4: the admin gate reads the caller's role from the user store at request
time — the token payload (`loginClaims`) embeds no role at all — so a caller
whose stored role is now `employee` is rejected with 403 on their next
admin-gated request even though their token is still valid, and regardless
of the role they held when the token was issued. -/
theorem role_recheck_demoted_admin (u v : User) (users : List User)
    (hu : userById users u.id = some v) (hrole : v.role = some "employee") :
    adminGate users (TokenState.goodToken (loginClaims u)) =
      AuthResult.reject 403 "Admin access required" := by
  simp [adminGate, authenticateToken, isAdmin, loginClaims, hu, hrole]

/-- Witness for C4: the admin of `adminRow` logs in, is demoted (the store
now holds `demotedRow`), and the very next admin-gated request is rejected
with 403. -/
theorem role_recheck_demoted_admin_witness :
    adminGate [demotedRow] (TokenState.goodToken (loginClaims adminRow)) =
      AuthResult.reject 403 "Admin access required" :=
  role_recheck_demoted_admin adminRow demotedRow [demotedRow] (by decide) (by decide)

/-- A list of records in which every row is active and carries one of the
seven enumerated statuses is exactly partitioned by the seven status
buckets. -/
theorem length_eq_sum_status_counts (l : List AuthRecord) :
    (∀ r ∈ l, r.is_deleted = 0 ∧ r.status ∈ sevenStatuses) →
    l.length =
      l.countP (fun r => r.status = some "Pending" ∧ r.is_deleted = 0) +
      l.countP (fun r => r.status = some "Approved" ∧ r.is_deleted = 0) +
      l.countP (fun r => r.status = some "Denied" ∧ r.is_deleted = 0) +
      l.countP (fun r => r.status = some "Not Required" ∧ r.is_deleted = 0) +
      l.countP (fun r => r.status = some "Follow Up" ∧ r.is_deleted = 0) +
      l.countP (fun r => r.status = some "Cancelled" ∧ r.is_deleted = 0) +
      l.countP (fun r => r.status = some "Not Covered" ∧ r.is_deleted = 0) := by
  induction l with
  | nil => intro _; simp
  | cons a t ih =>
    intro h
    obtain ⟨hdel, hstat⟩ := h a (List.mem_cons_self a t)
    have ht := ih (fun r hr => h r (List.mem_cons_of_mem a hr))
    simp only [sevenStatuses, List.mem_cons, List.not_mem_nil, or_false] at hstat
    rcases hstat with h1 | h1 | h1 | h1 | h1 | h1 | h1 <;>
      simp [List.countP_cons, h1, hdel, ht] <;> omega

/-- C3 counterexample: a store holding one active record whose status string
`"Submitted"` is outside the seven enumerated statuses has
`recordStats` `total = 1` while the seven status buckets sum to 0, so
total differs from the sum. -/
theorem recordStats_total_counterexample :
    (recordStats [createRecord oddBody 1 1 0] (fun _ => false)).total = 1 ∧
    (recordStats [createRecord oddBody 1 1 0] (fun _ => false)).pending +
      (recordStats [createRecord oddBody 1 1 0] (fun _ => false)).approved +
      (recordStats [createRecord oddBody 1 1 0] (fun _ => false)).denied +
      (recordStats [createRecord oddBody 1 1 0] (fun _ => false)).not_required +
      (recordStats [createRecord oddBody 1 1 0] (fun _ => false)).follow_up +
      (recordStats [createRecord oddBody 1 1 0] (fun _ => false)).cancelled +
      (recordStats [createRecord oddBody 1 1 0] (fun _ => false)).not_covered = 0 ∧
    (1 : Nat) ≠ 0 := by
  refine ⟨by decide, by decide, by decide⟩

/-- C3 (amended): `recordStats().total` equals the sum of the seven status
buckets whenever every active record's status is one of the seven enumerated
statuses; a record whose status falls outside the enumeration is counted in
`total` (a plain `COUNT(*)`) but in none of the buckets. -/
theorem recordStats_total_partition (store : List AuthRecord)
    (todayP : Option String → Bool)
    (h : ∀ r ∈ store, r.is_deleted = 0 → r.status ∈ sevenStatuses) :
    (recordStats store todayP).total =
      (recordStats store todayP).pending +
      (recordStats store todayP).approved +
      (recordStats store todayP).denied +
      (recordStats store todayP).not_required +
      (recordStats store todayP).follow_up +
      (recordStats store todayP).cancelled +
      (recordStats store todayP).not_covered := by
  have hfil : ∀ r ∈ store.filter (fun r => r.is_deleted = 0),
      r.is_deleted = 0 ∧ r.status ∈ sevenStatuses := by
    intro r hr
    rw [List.mem_filter] at hr
    have hdel : r.is_deleted = 0 := by
      have := hr.2
      simpa using this
    exact ⟨hdel, h r hr.1 hdel⟩
  simpa [recordStats] using
    length_eq_sum_status_counts (store.filter (fun r => r.is_deleted = 0)) hfil

/-- Witness for C3 (amended): on a one-record store with status
`"Pending"`, total 1 equals the bucket sum 1. -/
theorem recordStats_total_partition_witness :
    (recordStats [rec1] (fun _ => false)).total =
      (recordStats [rec1] (fun _ => false)).pending +
      (recordStats [rec1] (fun _ => false)).approved +
      (recordStats [rec1] (fun _ => false)).denied +
      (recordStats [rec1] (fun _ => false)).not_required +
      (recordStats [rec1] (fun _ => false)).follow_up +
      (recordStats [rec1] (fun _ => false)).cancelled +
      (recordStats [rec1] (fun _ => false)).not_covered :=
  recordStats_total_partition [rec1] (fun _ => false) (by decide)

/-- C5: soft-deleting an active record and then restoring it yields a record
equal to the pre-delete record in every field except `updated_at`, which both
transitions refresh: the intermediate trashed row carries the soft-delete
timestamp and the final row carries the restore timestamp. -/
theorem softDelete_restore_roundtrip (store : List AuthRecord)
    (rid now1 now2 : Nat) (r : AuthRecord)
    (hr : r ∈ store) (hid : r.id = rid) (hact : r.is_deleted = 0) :
    ({ r with is_deleted := 1, updated_at := now1 } : AuthRecord) ∈
      softDelete store rid now1 ∧
    ({ r with updated_at := now2 } : AuthRecord) ∈
      restore (softDelete store rid now1) rid now2 := by
  constructor
  · have hm := List.mem_map_of_mem
      (fun s : AuthRecord =>
        if s.id = rid then { s with is_deleted := 1, updated_at := now1 } else s) hr
    simpa [softDelete, hid] using hm
  · have hm1 : ({ r with is_deleted := 1, updated_at := now1 } : AuthRecord) ∈
        softDelete store rid now1 := by
      have hm := List.mem_map_of_mem
        (fun s : AuthRecord =>
          if s.id = rid then { s with is_deleted := 1, updated_at := now1 } else s) hr
      simpa [softDelete, hid] using hm
    have hm2 := List.mem_map_of_mem
      (fun s : AuthRecord =>
        if s.id = rid then { s with is_deleted := 0, updated_at := now2 } else s) hm1
    rw [← with_is_deleted_self r now2 hact]
    simpa [restore, hid] using hm2

/-- Witness for C5 on a concrete one-record store: soft-delete at time 3 and
restore at time 5 of the active record `rec1`. -/
theorem softDelete_restore_roundtrip_witness :
    ({ rec1 with is_deleted := 1, updated_at := 3 } : AuthRecord) ∈
      softDelete [rec1] 1 3 ∧
    ({ rec1 with updated_at := 5 } : AuthRecord) ∈
      restore (softDelete [rec1] 1 3) 1 5 :=
  softDelete_restore_roundtrip [rec1] 1 3 5 rec1 (by simp) (by decide) (by decide)

/-- C7 counterexample: a create request whose body leaves `status`
unspecified (bound as SQL `NULL`) inserts a record whose status is `NULL`,
not the schema default `'Pending'`: the INSERT of `POST /api/records` names
the `status` column explicitly, so the column default never applies. -/
theorem create_default_status_counterexample :
    emptyBody.status = none ∧
    (createRecord emptyBody 1 1 0).status = none ∧
    (createRecord emptyBody 1 1 0).status ≠ schemaDefaultStatus := by
  refine ⟨rfl, rfl, by decide⟩

/-- C7 (amended): a create request with `status` unspecified inserts a record
whose status is `NULL` (the bound body value, bypassing the schema default
`'Pending'`), with `is_deleted = 0` and `created_at = updated_at` (those
columns are omitted from the INSERT, so their schema defaults apply). -/
theorem create_unspecified_status_fields (body : RecordBody)
    (uid rid now : Nat) (h : body.status = none) :
    (createRecord body uid rid now).status = none ∧
    (createRecord body uid rid now).is_deleted = 0 ∧
    (createRecord body uid rid now).created_at =
      (createRecord body uid rid now).updated_at := by
  refine ⟨?_, rfl, rfl⟩
  simp [createRecord, h]

/-- Witness for C7 (amended) at the all-`NULL` body. -/
theorem create_unspecified_status_fields_witness :
    (createRecord emptyBody 1 1 0).status = none ∧
    (createRecord emptyBody 1 1 0).is_deleted = 0 ∧
    (createRecord emptyBody 1 1 0).created_at =
      (createRecord emptyBody 1 1 0).updated_at :=
  create_unspecified_status_fields emptyBody 1 1 0 rfl

/-- C6: an authenticated caller whose current stored role is `employee` gets
403 "Admin access required" from every admin-gated endpoint (list users,
employee stats, create user, edit user, delete user, soft-delete record,
purge record), whatever the request body or parameters, and the store is
left untouched; the restore endpoint, which carries no `isAdmin` middleware,
succeeds for the same caller. -/
theorem employee_admin_actions_forbidden (db : Db) (claims : SessionClaims)
    (v : User) (hu : userById db.users claims.id = some v)
    (hrole : v.role = some "employee")
    (username pw : String) (roleB pwB : Option String)
    (newId uid rid now : Nat) :
    listUsersEndpoint db (TokenState.goodToken claims) =
      (Resp.err 403 "Admin access required", db) ∧
    userStatsEndpoint db (TokenState.goodToken claims) =
      (Resp.err 403 "Admin access required", db) ∧
    createUserEndpoint db (TokenState.goodToken claims) username pw roleB newId =
      (Resp.err 403 "Admin access required", db) ∧
    editUserEndpoint db (TokenState.goodToken claims) uid username pwB roleB =
      (Resp.err 403 "Admin access required", db) ∧
    deleteUserEndpoint db (TokenState.goodToken claims) uid =
      (Resp.err 403 "Admin access required", db) ∧
    softDeleteEndpoint db (TokenState.goodToken claims) rid now =
      (Resp.err 403 "Admin access required", db) ∧
    purgeEndpoint db (TokenState.goodToken claims) rid =
      (Resp.err 403 "Admin access required", db) ∧
    restoreEndpoint db (TokenState.goodToken claims) rid now =
      (Resp.ok, { db with records := restore db.records rid now }) := by
  have hgate : adminGate db.users (TokenState.goodToken claims) =
      AuthResult.reject 403 "Admin access required" := by
    simp [adminGate, authenticateToken, isAdmin, hu, hrole]
  refine ⟨?_, ?_, ?_, ?_, ?_, ?_, ?_, ?_⟩ <;>
    simp [listUsersEndpoint, userStatsEndpoint, createUserEndpoint,
      editUserEndpoint, deleteUserEndpoint, softDeleteEndpoint, purgeEndpoint,
      restoreEndpoint, authenticateToken, hgate]

/-- Witness for C6: the employee `employeeRow` (id 7) is rejected by the
admin-gated endpoints on a concrete store and successfully restores the
trashed record `rec2`. -/
theorem employee_admin_actions_forbidden_witness :
    listUsersEndpoint ⟨[employeeRow], [rec2]⟩
      (TokenState.goodToken (loginClaims employeeRow)) =
      (Resp.err 403 "Admin access required", ⟨[employeeRow], [rec2]⟩) ∧
    softDeleteEndpoint ⟨[employeeRow], [rec2]⟩
      (TokenState.goodToken (loginClaims employeeRow)) 2 9 =
      (Resp.err 403 "Admin access required", ⟨[employeeRow], [rec2]⟩) ∧
    purgeEndpoint ⟨[employeeRow], [rec2]⟩
      (TokenState.goodToken (loginClaims employeeRow)) 2 =
      (Resp.err 403 "Admin access required", ⟨[employeeRow], [rec2]⟩) ∧
    restoreEndpoint ⟨[employeeRow], [rec2]⟩
      (TokenState.goodToken (loginClaims employeeRow)) 2 9 =
      (Resp.ok, ⟨[employeeRow], restore [rec2] 2 9⟩) := by
  have h := employee_admin_actions_forbidden ⟨[employeeRow], [rec2]⟩
    (loginClaims employeeRow) employeeRow (by decide) (by decide)
    "eve" "pw2" none none 8 1 2 9
  exact ⟨h.1, h.2.2.2.2.2.1, h.2.2.2.2.2.2.1, h.2.2.2.2.2.2.2⟩

/-- C8: `PUT /api/records/:id` overwrites every editable column of the
matching record from the request body and sets `updated_at` to the current
timestamp, while `id`, `is_deleted`, `created_at` and `user_id` keep their
stored values. -/
theorem update_overwrites_editable_frames_rest (store : List AuthRecord)
    (rid : Nat) (body : RecordBody) (now : Nat) (r : AuthRecord)
    (hr : r ∈ store) (hid : r.id = rid) :
    applyUpdate body now r ∈ update store rid body now ∧
    (applyUpdate body now r).visit_type = body.visit_type ∧
    (applyUpdate body now r).insurance = body.insurance ∧
    (applyUpdate body now r).insurance_id = body.insurance_id ∧
    (applyUpdate body now r).patient_name = body.patient_name ∧
    (applyUpdate body now r).dob = body.dob ∧
    (applyUpdate body now r).account_number = body.account_number ∧
    (applyUpdate body now r).p_r = body.p_r ∧
    (applyUpdate body now r).doctor_name = body.doctor_name ∧
    (applyUpdate body now r).procedure_codes = body.procedure_codes ∧
    (applyUpdate body now r).dx_codes = body.dx_codes ∧
    (applyUpdate body now r).status = body.status ∧
    (applyUpdate body now r).request_initiated = body.request_initiated ∧
    (applyUpdate body now r).insurance_portal_name = body.insurance_portal_name ∧
    (applyUpdate body now r).rep_name = body.rep_name ∧
    (applyUpdate body now r).phone_number = body.phone_number ∧
    (applyUpdate body now r).auth_case_number = body.auth_case_number ∧
    (applyUpdate body now r).ref_number = body.ref_number ∧
    (applyUpdate body now r).date_worked = body.date_worked ∧
    (applyUpdate body now r).call_time_spent = body.call_time_spent ∧
    (applyUpdate body now r).checklist = body.checklist ∧
    (applyUpdate body now r).notes = body.notes ∧
    (applyUpdate body now r).updated_at = now ∧
    (applyUpdate body now r).id = r.id ∧
    (applyUpdate body now r).is_deleted = r.is_deleted ∧
    (applyUpdate body now r).created_at = r.created_at ∧
    (applyUpdate body now r).user_id = r.user_id := by
  have hm := List.mem_map_of_mem
    (fun s : AuthRecord => if s.id = rid then applyUpdate body now s else s) hr
  refine ⟨?_, rfl, rfl, rfl, rfl, rfl, rfl, rfl, rfl, rfl, rfl, rfl, rfl, rfl,
    rfl, rfl, rfl, rfl, rfl, rfl, rfl, rfl, rfl, rfl, rfl, rfl, rfl⟩
  simpa [update, hid] using hm

/-- Witness for C8: updating record 1 of a concrete one-record store with
the body `oddBody` at time 4. -/
theorem update_overwrites_editable_frames_rest_witness :
    applyUpdate oddBody 4 rec1 ∈ update [rec1] 1 oddBody 4 ∧
    (applyUpdate oddBody 4 rec1).status = oddBody.status ∧
    (applyUpdate oddBody 4 rec1).updated_at = 4 ∧
    (applyUpdate oddBody 4 rec1).id = rec1.id ∧
    (applyUpdate oddBody 4 rec1).is_deleted = rec1.is_deleted ∧
    (applyUpdate oddBody 4 rec1).created_at = rec1.created_at ∧
    (applyUpdate oddBody 4 rec1).user_id = rec1.user_id := by
  obtain ⟨hmem, -, -, -, -, -, -, -, -, -, -, hstat, -, -, -, -, -, -, -, -, -,
    -, hupd, hid2, hdel2, hcre, huser⟩ :=
    update_overwrites_editable_frames_rest [rec1] 1 oddBody 4 rec1
      (by simp) (by decide)
  exact ⟨hmem, hstat, hupd, hid2, hdel2, hcre, huser⟩

/-- C9: `update`, `restore` and `softDelete` aimed at an id present in no
stored record return HTTP 200 success with zero rows affected and leave
every stored record unchanged — no NotFound error is produced.  (The
soft-delete endpoint is exercised by an admin caller, since its middleware
chain would otherwise reject before reaching the data layer.) -/
theorem missing_id_operations_silently_succeed (db : Db)
    (claims : SessionClaims) (v : User)
    (hu : userById db.users claims.id = some v)
    (hrole : v.role = some "admin")
    (rid : Nat) (body : RecordBody) (now : Nat)
    (hmiss : ∀ r ∈ db.records, r.id ≠ rid) :
    db.records.countP (fun r => r.id = rid) = 0 ∧
    updateRecordEndpoint db (TokenState.goodToken claims) rid body now = (Resp.ok, db) ∧
    restoreEndpoint db (TokenState.goodToken claims) rid now = (Resp.ok, db) ∧
    softDeleteEndpoint db (TokenState.goodToken claims) rid now = (Resp.ok, db) := by
  have hgate : adminGate db.users (TokenState.goodToken claims) =
      AuthResult.proceed claims := by
    simp [adminGate, authenticateToken, isAdmin, hu, hrole]
  refine ⟨?_, ?_, ?_, ?_⟩
  · rw [List.countP_eq_zero]
    intro r hr
    simpa using hmiss r hr
  · simp [updateRecordEndpoint, authenticateToken, update,
      map_guard_id_of_not_mem rid _ db.records hmiss]
  · simp [restoreEndpoint, authenticateToken, restore,
      map_guard_id_of_not_mem rid _ db.records hmiss]
  · simp [softDeleteEndpoint, hgate, softDelete,
      map_guard_id_of_not_mem rid _ db.records hmiss]

/-- Witness for C9: the admin of `adminRow` targets the absent id 99 on a
concrete one-record store; all three operations report success and the store
is unchanged. -/
theorem missing_id_operations_silently_succeed_witness :
    ([rec1] : List AuthRecord).countP (fun r => r.id = 99) = 0 ∧
    updateRecordEndpoint ⟨[adminRow], [rec1]⟩
      (TokenState.goodToken (loginClaims adminRow)) 99 emptyBody 6 =
      (Resp.ok, ⟨[adminRow], [rec1]⟩) ∧
    restoreEndpoint ⟨[adminRow], [rec1]⟩
      (TokenState.goodToken (loginClaims adminRow)) 99 6 =
      (Resp.ok, ⟨[adminRow], [rec1]⟩) ∧
    softDeleteEndpoint ⟨[adminRow], [rec1]⟩
      (TokenState.goodToken (loginClaims adminRow)) 99 6 =
      (Resp.ok, ⟨[adminRow], [rec1]⟩) :=
  missing_id_operations_silently_succeed ⟨[adminRow], [rec1]⟩
    (loginClaims adminRow) adminRow (by decide) (by decide) 99 emptyBody 6
    (by decide)

/-- C10: a validly signed, unexpired token whose embedded user id no longer
exists in the user store still authenticates: listing, create, edit and
restore succeed (a created record is attributed to the nonexistent user id),
while every admin-gated request is rejected with 403 because the role lookup
finds no user row. -/
theorem ghost_user_token_behaviour (db : Db) (claims : SessionClaims)
    (hu : userById db.users claims.id = none)
    (body : RecordBody) (rid now : Nat) :
    listRecordsEndpoint db (TokenState.goodToken claims) = (Resp.ok, db) ∧
    listTrashedEndpoint db (TokenState.goodToken claims) = (Resp.ok, db) ∧
    createRecordEndpoint db (TokenState.goodToken claims) body rid now =
      (Resp.ok, { db with records := db.records ++ [createRecord body claims.id rid now] }) ∧
    (createRecord body claims.id rid now).user_id = some claims.id ∧
    updateRecordEndpoint db (TokenState.goodToken claims) rid body now =
      (Resp.ok, { db with records := update db.records rid body now }) ∧
    restoreEndpoint db (TokenState.goodToken claims) rid now =
      (Resp.ok, { db with records := restore db.records rid now }) ∧
    adminGate db.users (TokenState.goodToken claims) =
      AuthResult.reject 403 "Admin access required" := by
  refine ⟨rfl, rfl, rfl, rfl, rfl, rfl, ?_⟩
  simp [adminGate, authenticateToken, isAdmin, hu]

/-- Witness for C10: a token for the deleted user id 42 against a store
whose only user row is `adminRow` (id 1). -/
theorem ghost_user_token_behaviour_witness :
    createRecordEndpoint ⟨[adminRow], []⟩
      (TokenState.goodToken ⟨42, "ghost"⟩) emptyBody 1 0 =
      (Resp.ok, ⟨[adminRow], [createRecord emptyBody 42 1 0]⟩) ∧
    (createRecord emptyBody 42 1 0).user_id = some 42 ∧
    adminGate [adminRow] (TokenState.goodToken ⟨42, "ghost"⟩) =
      AuthResult.reject 403 "Admin access required" := by
  have h := ghost_user_token_behaviour ⟨[adminRow], []⟩ ⟨42, "ghost"⟩
    (by decide) emptyBody 1 0
  exact ⟨h.2.2.1, h.2.2.2.1, h.2.2.2.2.2.2⟩
